import Mathlib

/-!
Verification of the module-management and simulation-request service layer of the
Solar Emulator web application (frontend/src/services/moduleService.ts and api.ts).

The service code is JavaScript/TypeScript.  We embed the runtime values the
validation code actually inspects (`undefined`, `null`, finite numbers, `NaN`,
strings) as `JSValue`, with finite numbers modelled as rationals.  Each service
operation becomes a pure function taking the outcome of its transport call as an
explicit argument, and returning the delivered result together with the list of
request bodies it dispatched (so "no network call was made" is the statement
that this list is empty).
-/

/-- A JavaScript runtime value as inspected by the service layer's validation
code: `undefined`, `null`, a finite number (modelled as a rational), `NaN`, or a
string. -/
inductive JSValue where
  | undefined
  | null
  | num (q : ℚ)
  | nan
  | str (s : String)
deriving DecidableEq, Repr

/-- `v === undefined || v === null || v === ''` (the required-field test in
`createModule`; `===` is strict, so only the empty string matches `''`). -/
def jsMissing : JSValue → Bool
  | .undefined => true
  | .null => true
  | .str s => s = ""
  | _ => false

/-- `typeof v !== 'number' || isNaN(v)` — `NaN` has `typeof` `'number'` but
fails the `isNaN` test, so exactly the finite numbers pass. -/
def jsNotNumber : JSValue → Bool
  | .num _ => false
  | _ => true

/-- `(v as number) <= 0` evaluated on a value already known to be a finite
number (every call site is guarded so that non-numbers never reach this test). -/
def jsLeZero : JSValue → Bool
  | .num q => decide (q ≤ 0)
  | _ => false

/-- `Number.isInteger(v)`. -/
def jsIsInteger : JSValue → Bool
  | .num q => q.den == 1
  | _ => false

/-- `v < b` on a value already known to be a finite number. -/
def jsNumLt (v : JSValue) (b : ℚ) : Bool :=
  match v with
  | .num q => decide (q < b)
  | _ => false

/-- `v > b` on a value already known to be a finite number. -/
def jsNumGt (v : JSValue) (b : ℚ) : Bool :=
  match v with
  | .num q => decide (b < q)
  | _ => false

/-- `v !== undefined` — whether an optional argument was supplied. -/
def jsSupplied (v : JSValue) : Bool :=
  v ≠ .undefined

/-- How a JavaScript template string renders the interpolated value; all ids
interpolated by the service are integral numbers. -/
def ratDisplay (q : ℚ) : String :=
  if q.den == 1 then toString q.num else toString q

/-- `error.response.data?.detail || fallback` — JavaScript `||`, under which
the empty string is falsy. -/
def jsOrElse (d : Option String) (fallback : String) : String :=
  match d with
  | some s => if s = "" then fallback else s
  | none => fallback

/-- Contiguous-occurrence test on character lists: `pat` occurs in the list. -/
def occursIn (pat : List Char) : List Char → Bool
  | [] => pat.isEmpty
  | c :: rest => pat.isPrefixOf (c :: rest) || occursIn pat rest

/-- JavaScript `s.includes(pat)`. -/
def strIncludes (s pat : String) : Bool :=
  occursIn pat.data s.data

/-- `VALID_CELLTYPES` from frontend/src/types: the fixed cell-technology
enumeration. -/
def VALID_CELLTYPES : List String :=
  ["monoSi", "multiSi", "polySi", "cis", "cigs", "cdte", "amorphous"]

/-- `VALID_CELLTYPES.includes(v)` — `includes` compares with SameValueZero, so
only an exactly equal string is a member. -/
def jsCelltypeIncluded : JSValue → Bool
  | .str s => VALID_CELLTYPES.contains s
  | _ => false

/-- A stored PV module record as returned by the server. -/
structure PVModule where
  id : ℚ
  name : String
  voc : ℚ
  isc : ℚ
  vmp : ℚ
  imp : ℚ
  ns : ℚ
  kv : ℚ
  ki : ℚ
  celltype : String
  gamma_pmp : ℚ
deriving DecidableEq, Repr

/-- A `createModule` payload: each declared field holds whatever runtime value
the caller passed (the validation code inspects them dynamically). -/
structure PVModuleCreate where
  name : JSValue
  voc : JSValue
  isc : JSValue
  vmp : JSValue
  imp : JSValue
  ns : JSValue
  kv : JSValue
  ki : JSValue
  celltype : JSValue
  gamma_pmp : JSValue
deriving DecidableEq, Repr

/-- `moduleData[field]` for the ten statically declared field names. -/
def PVModuleCreate.getField (m : PVModuleCreate) : String → JSValue
  | "name" => m.name
  | "voc" => m.voc
  | "isc" => m.isc
  | "vmp" => m.vmp
  | "imp" => m.imp
  | "ns" => m.ns
  | "kv" => m.kv
  | "ki" => m.ki
  | "celltype" => m.celltype
  | "gamma_pmp" => m.gamma_pmp
  | _ => .undefined

/-- An `updateModule` payload: same fields, `undefined` meaning "not supplied". -/
structure PVModuleUpdate where
  name : JSValue
  voc : JSValue
  isc : JSValue
  vmp : JSValue
  imp : JSValue
  ns : JSValue
  kv : JSValue
  ki : JSValue
  celltype : JSValue
  gamma_pmp : JSValue
deriving DecidableEq, Repr

/-- `updateData[field]` for the ten declared field names. -/
def PVModuleUpdate.getField (m : PVModuleUpdate) : String → JSValue
  | "name" => m.name
  | "voc" => m.voc
  | "isc" => m.isc
  | "vmp" => m.vmp
  | "imp" => m.imp
  | "ns" => m.ns
  | "kv" => m.kv
  | "ki" => m.ki
  | "celltype" => m.celltype
  | "gamma_pmp" => m.gamma_pmp
  | _ => .undefined

/-- The outcome of one transport call, as seen by the service's `catch` block
when it fails: either a response with an error status (carrying the optional
`detail` field of the body and the transport library's error message), or no
response at all (network failure / timeout). -/
inductive TransportError where
  | http (status : Nat) (detail : Option String) (message : String)
  | network (message : String)
deriving DecidableEq, Repr

/-- `error.response?.status`. -/
def TransportError.status? : TransportError → Option Nat
  | .http s _ _ => some s
  | .network _ => none

/-- `error.response.data?.detail`. -/
def TransportError.detail? : TransportError → Option String
  | .http _ d _ => d
  | .network _ => none

/-- `error.message` of the transport error object. -/
def TransportError.msg : TransportError → String
  | .http _ _ m => m
  | .network m => m

/-- Result of one transport round trip. -/
inductive TransportResult (α : Type) where
  | ok (value : α)
  | err (e : TransportError)
deriving DecidableEq, Repr

/-- The error object reaching a service `catch` block: a locally thrown
validation `Error` (no `response`, so no status and no detail) or a transport
failure. -/
structure CaughtError where
  status? : Option Nat
  detail? : Option String
  message : String
deriving DecidableEq, Repr

/-- View a transport failure as the caught error object. -/
def TransportError.toCaught (e : TransportError) : CaughtError :=
  ⟨e.status?, e.detail?, e.msg⟩

/-- `requiredFields` in `createModule`. -/
def requiredFields : List String :=
  ["name", "voc", "isc", "vmp", "imp", "ns", "kv", "ki", "celltype", "gamma_pmp"]

/-- `numericFields` in `createModule` and `updateModule`. -/
def numericFields : List String :=
  ["voc", "isc", "vmp", "imp", "ns", "kv", "ki", "gamma_pmp"]

/-- `positiveFields` in `createModule` and `updateModule`. -/
def positiveFields : List String :=
  ["voc", "isc", "vmp", "imp"]

/-- The local (pre-network) validation sequence of `createModule`
(moduleService.ts lines 60–96): the `Error` message thrown by the first
violated rule, or `ok` when every rule passes. -/
def createLocalValidation (m : PVModuleCreate) : Except String Unit :=
  let missingFields := requiredFields.filter fun field => jsMissing (m.getField field)
  if missingFields.length > 0 then
    .error ("Missing required fields: " ++ String.intercalate ", " missingFields)
  else
    let invalidFields := numericFields.filter fun field => jsNotNumber (m.getField field)
    if invalidFields.length > 0 then
      .error ("Invalid numeric values for: " ++ String.intercalate ", " invalidFields)
    else
      let negativeFields := positiveFields.filter fun field => jsLeZero (m.getField field)
      if negativeFields.length > 0 then
        .error ("Values must be positive for: " ++ String.intercalate ", " negativeFields)
      else if !jsIsInteger m.ns || jsLeZero m.ns then
        .error "Number of cells in series (ns) must be a positive integer."
      else if !jsCelltypeIncluded m.celltype then
        .error ("Invalid celltype. Must be one of: " ++ String.intercalate ", " VALID_CELLTYPES)
      else
        .ok ()

/-- `createModule`'s `catch` handler (moduleService.ts lines 100–113). -/
def createCatchHandler (e : CaughtError) : String :=
  if e.status? = some 400 then
    jsOrElse e.detail? "Bad request"
  else if strIncludes e.message "Missing required fields" ||
      strIncludes e.message "Invalid numeric values" ||
      strIncludes e.message "Values must be positive" ||
      strIncludes e.message "Number of cells" then
    e.message
  else
    "Failed to create PV module. Please check your input and try again."

/-- `createModule`: local validation, then at most one POST dispatch, with all
failures funnelled through the `catch` handler.  Returns the delivered result
and the list of dispatched request bodies. -/
def createModule (m : PVModuleCreate) (t : TransportResult PVModule) :
    Except String PVModule × List PVModuleCreate :=
  match createLocalValidation m with
  | .error msg => (.error (createCatchHandler ⟨none, none, msg⟩), [])
  | .ok _ =>
    match t with
    | .ok created => (.ok created, [m])
    | .err e => (.error (createCatchHandler e.toCaught), [m])

/-- The local validation sequence of `updateModule` (moduleService.ts lines
122–151): each rule applies only to fields that are supplied. -/
def updateLocalValidation (u : PVModuleUpdate) : Except String Unit :=
  let invalidFields := numericFields.filter fun field =>
    jsSupplied (u.getField field) && jsNotNumber (u.getField field)
  if invalidFields.length > 0 then
    .error ("Invalid numeric values for: " ++ String.intercalate ", " invalidFields)
  else
    let negativeFields := positiveFields.filter fun field =>
      jsSupplied (u.getField field) && jsLeZero (u.getField field)
    if negativeFields.length > 0 then
      .error ("Values must be positive for: " ++ String.intercalate ", " negativeFields)
    else if jsSupplied u.ns && (!jsIsInteger u.ns || jsLeZero u.ns) then
      .error "Number of cells in series (ns) must be a positive integer."
    else if jsSupplied u.celltype && !jsCelltypeIncluded u.celltype then
      .error ("Invalid celltype. Must be one of: " ++ String.intercalate ", " VALID_CELLTYPES)
    else
      .ok ()

/-- The "not found" message used by `getModuleById`, `updateModule`,
`deleteModule` (and, with a `JSValue` id, `simulateIVCurve`). -/
def notFoundMsg (moduleId : ℚ) : String :=
  "PV module with ID " ++ ratDisplay moduleId ++ " not found."

/-- `updateModule`'s `catch` handler (moduleService.ts lines 155–170). -/
def updateCatchHandler (moduleId : ℚ) (e : CaughtError) : String :=
  if e.status? = some 404 then
    notFoundMsg moduleId
  else if e.status? = some 400 then
    jsOrElse e.detail? "Bad request"
  else if strIncludes e.message "Invalid numeric values" ||
      strIncludes e.message "Values must be positive" ||
      strIncludes e.message "Number of cells" then
    e.message
  else
    "Failed to update PV module. Please try again."

/-- `updateModule`: local validation on supplied fields, then at most one PUT
dispatch.  Returns the delivered result and the dispatched bodies. -/
def updateModule (moduleId : ℚ) (u : PVModuleUpdate) (t : TransportResult PVModule) :
    Except String PVModule × List PVModuleUpdate :=
  match updateLocalValidation u with
  | .error msg => (.error (updateCatchHandler moduleId ⟨none, none, msg⟩), [])
  | .ok _ =>
    match t with
    | .ok updated => (.ok updated, [u])
    | .err e => (.error (updateCatchHandler moduleId e.toCaught), [u])

/-- `getAllModules`: any transport failure collapses to the generic load
message (moduleService.ts lines 23–35). -/
def getAllModules (t : TransportResult (List PVModule)) : Except String (List PVModule) :=
  match t with
  | .ok modules => .ok modules
  | .err _ => .error "Failed to load PV modules. Please try again."

/-- `getModuleById` (moduleService.ts lines 41–52). -/
def getModuleById (moduleId : ℚ) (t : TransportResult PVModule) : Except String PVModule :=
  match t with
  | .ok m => .ok m
  | .err e =>
    if e.status? = some 404 then
      .error (notFoundMsg moduleId)
    else
      .error "Failed to load PV module. Please try again."

/-- Body of a DELETE response. -/
structure DeleteResponse where
  detail : String
deriving DecidableEq, Repr

/-- `deleteModule` (moduleService.ts lines 177–188). -/
def deleteModule (moduleId : ℚ) (t : TransportResult DeleteResponse) : Except String String :=
  match t with
  | .ok r => .ok r.detail
  | .err e =>
    if e.status? = some 404 then
      .error (notFoundMsg moduleId)
    else
      .error "Failed to delete PV module. Please try again."

/-- `deleteMultipleModules` (moduleService.ts lines 194–220): one `deleteModule`
per id (the `i`-th call's transport outcome is `t i`), settled jointly; the
`forEach` pushes each fulfilled value in order.  Returns the delivered
confirmations and the list of ids a delete was dispatched for. -/
def deleteMultipleModules (moduleIds : List ℚ) (t : Nat → TransportResult DeleteResponse) :
    List String × List ℚ :=
  let results := moduleIds.mapIdx fun i id => deleteModule id (t i)
  let successResults := results.foldl
    (fun acc r =>
      match r with
      | .ok s => acc ++ [s]
      | .error _ => acc)
    []
  (successResults, moduleIds)

/-- `module.id !== excludeId` — a number is never strictly equal to
`undefined`, so an omitted `excludeId` excludes nothing. -/
def jsIdNe (id : ℚ) (excludeId : Option ℚ) : Bool :=
  match excludeId with
  | some e => id ≠ e
  | none => true

/-- JavaScript `s.toLowerCase()`, character by character (module names in this
application are ASCII, where the two agree). -/
def jsToLowerCase (s : String) : String :=
  ⟨s.data.map Char.toLower⟩

/-- `checkModuleNameExists` (moduleService.ts lines 226–237). -/
def checkModuleNameExists (name : String) (excludeId : Option ℚ)
    (t : TransportResult (List PVModule)) : Bool :=
  match getAllModules t with
  | .ok modules =>
    modules.any fun m => jsToLowerCase m.name == jsToLowerCase name && jsIdNe m.id excludeId
  | .error _ => false

/-- The request body of `simulateIVCurve` (the `SimulationInput` shape). -/
structure SimulationInput where
  module_id : JSValue
  use_environmental_conditions : Bool
  temperature : JSValue
  irradiance : JSValue
deriving DecidableEq, Repr

/-- Summary block of a simulation response. -/
structure SimulationSummary where
  Voc : ℚ
  Isc : ℚ
  Vmp : ℚ
  Imp : ℚ
  Pmp : ℚ
deriving DecidableEq, Repr

/-- A simulation response payload (returned unmodified on success). -/
structure SimulationResponse where
  module_id : ℚ
  mode : String
  irradiance : ℚ
  temperature : ℚ
  iv_curve : List (List ℚ)
  pv_curve : List (List ℚ)
  summary : SimulationSummary
deriving DecidableEq, Repr

/-- The local validation sequence of `simulateIVCurve` (moduleService.ts lines
253–274). -/
def simulateLocalValidation (module_id temperature irradiance : JSValue) :
    Except String Unit :=
  if !jsIsInteger module_id || jsLeZero module_id then
    .error "Module ID must be a positive integer."
  else if jsSupplied temperature && jsNotNumber temperature then
    .error "Temperature must be a valid number."
  else if jsSupplied temperature && (jsNumLt temperature (-40) || jsNumGt temperature 85) then
    .error "Temperature must be between -40°C and 85°C."
  else if jsSupplied irradiance && jsNotNumber irradiance then
    .error "Irradiance must be a valid number."
  else if jsSupplied irradiance && (jsNumLt irradiance 0 || jsNumGt irradiance 1500) then
    .error "Irradiance must be between 0 and 1500 W/m²."
  else
    .ok ()

/-- `simulateIVCurve`'s `catch` handler (moduleService.ts lines 286–301). -/
def simulateCatchHandler (module_id : JSValue) (e : CaughtError) : String :=
  if e.status? = some 404 then
    (match module_id with
     | .num q => notFoundMsg q
     | .str s => "PV module with ID " ++ s ++ " not found."
     | .nan => "PV module with ID NaN not found."
     | .undefined => "PV module with ID undefined not found."
     | .null => "PV module with ID null not found.")
  else if e.status? = some 500 then
    "Simulation error: " ++ jsOrElse e.detail? "Simulation failed"
  else if strIncludes e.message "Temperature must be" ||
      strIncludes e.message "Irradiance must be" ||
      strIncludes e.message "Module ID must be" then
    e.message
  else
    "Failed to generate IV curve simulation. Please try again."

/-- `simulateIVCurve`: local validation, then at most one POST of the built
`SimulationInput`.  Returns the delivered result and the dispatched bodies. -/
def simulateIVCurve (module_id temperature irradiance : JSValue)
    (t : TransportResult SimulationResponse) :
    Except String SimulationResponse × List SimulationInput :=
  match simulateLocalValidation module_id temperature irradiance with
  | .error msg => (.error (simulateCatchHandler module_id ⟨none, none, msg⟩), [])
  | .ok _ =>
    let simulationInput : SimulationInput :=
      { module_id := module_id
        use_environmental_conditions := jsSupplied temperature || jsSupplied irradiance
        temperature := temperature
        irradiance := irradiance }
    match t with
    | .ok r => (.ok r, [simulationInput])
    | .err e => (.error (simulateCatchHandler module_id e.toCaught), [simulationInput])

/-- The piece of browser state the transport adapter's interceptors touch:
the stored bearer credential (`localStorage` key `authToken`). -/
structure ClientState where
  authToken : Option String
deriving DecidableEq, Repr

/-- The transport adapter's response error interceptor (api.ts lines 36–61):
logs, clears the stored credential exactly on status 401, and re-raises the
same error object. -/
def responseErrorInterceptor (s : ClientState) (e : TransportError) :
    ClientState × TransportError :=
  (if e.status? = some 401 then { authToken := none } else s, e)

/-!
Spec-modelled validation definitions.  These are written from the wording of
the specification's validation rules (not from the code), to be compared with
the source-embedded validators above by refinement theorems.
-/

/-- Modelled from the spec: a required attribute is "present and non-empty" —
not `undefined`, not `null`, and not the empty string. -/
def specPresent : JSValue → Bool
  | .undefined => false
  | .null => false
  | .str s => s ≠ ""
  | _ => true

/-- Modelled from the spec: the attribute is "actually numeric" (a finite
number; `NaN` is not accepted as numeric). -/
def specNumeric : JSValue → Bool
  | .num _ => true
  | _ => false

/-- Modelled from the spec: the attribute is a number "strictly greater than
0". -/
def specPositiveNum : JSValue → Bool
  | .num q => decide (0 < q)
  | _ => false

/-- Modelled from the spec: the attribute is "a positive integer". -/
def specPosIntNum : JSValue → Bool
  | .num q => q.den == 1 && decide (0 < q)
  | _ => false

/-- Modelled from the spec: `celltype` is "a member of the fixed enumerated
set monoSi, multiSi, polySi, cis, cigs, cdte, amorphous". -/
def specCelltypeMember : JSValue → Bool
  | .str s => decide (s ∈ ["monoSi", "multiSi", "polySi", "cis", "cigs", "cdte", "amorphous"])
  | _ => false

/-- Modelled from the spec: the create validation cascade — rules checked in
the fixed order required/numeric/positive/ns/celltype, failing with the message
of the first violated rule, the first three listing every offending field. -/
def createValidationSpec (m : PVModuleCreate) : Except String Unit :=
  let missing := requiredFields.filter fun field => !specPresent (m.getField field)
  if missing ≠ [] then
    .error ("Missing required fields: " ++ String.intercalate ", " missing)
  else
    let nonNumeric := numericFields.filter fun field => !specNumeric (m.getField field)
    if nonNumeric ≠ [] then
      .error ("Invalid numeric values for: " ++ String.intercalate ", " nonNumeric)
    else
      let nonPositive := positiveFields.filter fun field => !specPositiveNum (m.getField field)
      if nonPositive ≠ [] then
        .error ("Values must be positive for: " ++ String.intercalate ", " nonPositive)
      else if !specPosIntNum m.ns then
        .error "Number of cells in series (ns) must be a positive integer."
      else if !specCelltypeMember m.celltype then
        .error ("Invalid celltype. Must be one of: " ++ String.intercalate ", " VALID_CELLTYPES)
      else
        .ok ()

/-- Modelled from the spec: a supplied temperature must be numeric and within
[-40, 85]; an omitted temperature triggers no check. -/
def temperatureCheckSpec : JSValue → Except String Unit
  | .undefined => .ok ()
  | .num q =>
    if q < -40 ∨ 85 < q then
      .error "Temperature must be between -40°C and 85°C."
    else
      .ok ()
  | _ => .error "Temperature must be a valid number."

/-- Modelled from the spec: a supplied irradiance must be numeric and within
[0, 1500]; an omitted irradiance triggers no check. -/
def irradianceCheckSpec : JSValue → Except String Unit
  | .undefined => .ok ()
  | .num q =>
    if q < 0 ∨ 1500 < q then
      .error "Irradiance must be between 0 and 1500 W/m²."
    else
      .ok ()
  | _ => .error "Irradiance must be a valid number."

/-- Modelled from the spec: the simulation request validation — module id first,
then temperature, then irradiance. -/
def simulateValidationSpec (module_id temperature irradiance : JSValue) :
    Except String Unit :=
  if !specPosIntNum module_id then
    .error "Module ID must be a positive integer."
  else
    match temperatureCheckSpec temperature with
    | .error msg => .error msg
    | .ok _ => irradianceCheckSpec irradiance

/-- The exact message of the celltype-membership rule. -/
def celltypeErrMsg : String :=
  "Invalid celltype. Must be one of: " ++ String.intercalate ", " VALID_CELLTYPES

/-!  Helper lemmas about the substring test. -/

theorem occursIn_append (p t : List Char) : occursIn p (p ++ t) = true := by
  cases p with
  | nil => cases t <;> simp [occursIn, List.isEmpty, List.isPrefixOf]
  | cons a as =>
    show occursIn (a :: as) ((a :: as) ++ t) = true
    have hpre : (a :: as).isPrefixOf ((a :: as) ++ t) = true := by
      exact List.isPrefixOf_iff_prefix.mpr (List.prefix_append _ _)
    simp [occursIn, hpre]

theorem strIncludes_of_split (s p q : String) (h : s.data = p.data ++ q.data) :
    strIncludes s p = true := by
  unfold strIncludes
  rw [h]
  exact occursIn_append _ _

example : strIncludes "Missing required fields: name, voc" "Missing required fields" = true := by
  decide

example : strIncludes celltypeErrMsg "Missing required fields" = false := by decide

example : createLocalValidation ⟨.str "x", .num 40, .num 10, .num 33, .num 9, .num 60,
    .num (-1), .num 1, .str "foo", .num (-1)⟩ = .error celltypeErrMsg := by rfl

theorem strIncludes_append (p r : String) : strIncludes (p ++ r) p = true := by
  apply strIncludes_of_split _ _ r
  rw [String.data_append]

theorem strIncludes_of_prefix_split (lit ext c r : String)
    (h0 : lit.data = ext.data ++ c.data) :
    strIncludes (lit ++ r) ext = true := by
  apply strIncludes_of_split _ _ (c ++ r)
  rw [String.data_append, String.data_append, h0, List.append_assoc]

/-- A locally thrown validation `Error` reaches the `createModule` handler with
no response; it is re-thrown as-is exactly when its message matches one of the
four whitelisted fragments. -/
theorem createCatchHandler_passthrough (msg : String)
    (h : strIncludes msg "Missing required fields" = true ∨
      strIncludes msg "Invalid numeric values" = true ∨
      strIncludes msg "Values must be positive" = true ∨
      strIncludes msg "Number of cells" = true) :
    createCatchHandler ⟨none, none, msg⟩ = msg := by
  unfold createCatchHandler
  rcases h with h | h | h | h <;> simp [h]

theorem updateCatchHandler_passthrough (moduleId : ℚ) (msg : String)
    (h : strIncludes msg "Invalid numeric values" = true ∨
      strIncludes msg "Values must be positive" = true ∨
      strIncludes msg "Number of cells" = true) :
    updateCatchHandler moduleId ⟨none, none, msg⟩ = msg := by
  unfold updateCatchHandler
  rcases h with h | h | h <;> simp [h]

theorem simulateCatchHandler_passthrough (module_id : JSValue) (msg : String)
    (h : strIncludes msg "Temperature must be" = true ∨
      strIncludes msg "Irradiance must be" = true ∨
      strIncludes msg "Module ID must be" = true) :
    simulateCatchHandler module_id ⟨none, none, msg⟩ = msg := by
  unfold simulateCatchHandler
  rcases h with h | h | h <;> simp [h]

/-- Every `createModule` validation failure message is of one of the five forms
produced by the five rules. -/
theorem createLocalValidation_error_shape (m : PVModuleCreate) (msg : String)
    (h : createLocalValidation m = .error msg) :
    (∃ r, msg = "Missing required fields: " ++ r) ∨
    (∃ r, msg = "Invalid numeric values for: " ++ r) ∨
    (∃ r, msg = "Values must be positive for: " ++ r) ∨
    msg = "Number of cells in series (ns) must be a positive integer." ∨
    msg = celltypeErrMsg := by
  unfold createLocalValidation at h
  simp only [] at h
  split at h
  · injection h with h'
    exact Or.inl ⟨_, h'.symm⟩
  · split at h
    · injection h with h'
      exact Or.inr (Or.inl ⟨_, h'.symm⟩)
    · split at h
      · injection h with h'
        exact Or.inr (Or.inr (Or.inl ⟨_, h'.symm⟩))
      · split at h
        · injection h with h'
          exact Or.inr (Or.inr (Or.inr (Or.inl h'.symm)))
        · split at h
          · injection h with h'
            exact Or.inr (Or.inr (Or.inr (Or.inr h'.symm)))
          · exact Except.noConfusion h

/-- Every `updateModule` validation failure message is of one of the four forms
produced by the four rules. -/
theorem updateLocalValidation_error_shape (u : PVModuleUpdate) (msg : String)
    (h : updateLocalValidation u = .error msg) :
    (∃ r, msg = "Invalid numeric values for: " ++ r) ∨
    (∃ r, msg = "Values must be positive for: " ++ r) ∨
    msg = "Number of cells in series (ns) must be a positive integer." ∨
    msg = celltypeErrMsg := by
  unfold updateLocalValidation at h
  simp only [] at h
  split at h
  · injection h with h'
    exact Or.inl ⟨_, h'.symm⟩
  · split at h
    · injection h with h'
      exact Or.inr (Or.inl ⟨_, h'.symm⟩)
    · split at h
      · injection h with h'
        exact Or.inr (Or.inr (Or.inl h'.symm))
      · split at h
        · injection h with h'
          exact Or.inr (Or.inr (Or.inr h'.symm))
        · exact Except.noConfusion h

/-- Every `simulateIVCurve` validation failure message is one of the five
fixed strings. -/
theorem simulateLocalValidation_error_shape (a b c : JSValue) (msg : String)
    (h : simulateLocalValidation a b c = .error msg) :
    msg = "Module ID must be a positive integer." ∨
    msg = "Temperature must be a valid number." ∨
    msg = "Temperature must be between -40°C and 85°C." ∨
    msg = "Irradiance must be a valid number." ∨
    msg = "Irradiance must be between 0 and 1500 W/m²." := by
  unfold simulateLocalValidation at h
  split at h
  · injection h with h'
    exact Or.inl h'.symm
  · split at h
    · injection h with h'
      exact Or.inr (Or.inl h'.symm)
    · split at h
      · injection h with h'
        exact Or.inr (Or.inr (Or.inl h'.symm))
      · split at h
        · injection h with h'
          exact Or.inr (Or.inr (Or.inr (Or.inl h'.symm)))
        · split at h
          · injection h with h'
            exact Or.inr (Or.inr (Or.inr (Or.inr h'.symm)))
          · exact Except.noConfusion h

/-- A non-celltype `createModule` validation failure is delivered unchanged. -/
theorem createModule_validation_passthrough (m : PVModuleCreate)
    (t : TransportResult PVModule) (msg : String)
    (h : createLocalValidation m = .error msg) (hne : msg ≠ celltypeErrMsg) :
    (createModule m t).1 = .error msg := by
  simp only [createModule, h]
  congr 1
  rcases createLocalValidation_error_shape m msg h with ⟨r, rfl⟩ | ⟨r, rfl⟩ | ⟨r, rfl⟩ | rfl | rfl
  · exact createCatchHandler_passthrough _ (Or.inl
      (strIncludes_of_prefix_split _ "Missing required fields" ": " r rfl))
  · exact createCatchHandler_passthrough _ (Or.inr (Or.inl
      (strIncludes_of_prefix_split _ "Invalid numeric values" " for: " r rfl)))
  · exact createCatchHandler_passthrough _ (Or.inr (Or.inr (Or.inl
      (strIncludes_of_prefix_split _ "Values must be positive" " for: " r rfl))))
  · exact createCatchHandler_passthrough _ (Or.inr (Or.inr (Or.inr (by decide))))
  · exact absurd rfl hne

/-- A celltype-membership `createModule` validation failure is replaced by the
generic create-failure message. -/
theorem createModule_celltype_generic (m : PVModuleCreate)
    (t : TransportResult PVModule)
    (h : createLocalValidation m = .error celltypeErrMsg) :
    (createModule m t).1 =
      .error "Failed to create PV module. Please check your input and try again." := by
  simp only [createModule, h]
  congr 1

/-- A non-celltype `updateModule` validation failure is delivered unchanged. -/
theorem updateModule_validation_passthrough (moduleId : ℚ) (u : PVModuleUpdate)
    (t : TransportResult PVModule) (msg : String)
    (h : updateLocalValidation u = .error msg) (hne : msg ≠ celltypeErrMsg) :
    (updateModule moduleId u t).1 = .error msg := by
  simp only [updateModule, h]
  congr 1
  rcases updateLocalValidation_error_shape u msg h with ⟨r, rfl⟩ | ⟨r, rfl⟩ | rfl | rfl
  · exact updateCatchHandler_passthrough _ _ (Or.inl
      (strIncludes_of_prefix_split _ "Invalid numeric values" " for: " r rfl))
  · exact updateCatchHandler_passthrough _ _ (Or.inr (Or.inl
      (strIncludes_of_prefix_split _ "Values must be positive" " for: " r rfl)))
  · exact updateCatchHandler_passthrough _ _ (Or.inr (Or.inr (by decide)))
  · exact absurd rfl hne

/-- A celltype-membership `updateModule` validation failure is replaced by the
generic update-failure message. -/
theorem updateModule_celltype_generic (moduleId : ℚ) (u : PVModuleUpdate)
    (t : TransportResult PVModule)
    (h : updateLocalValidation u = .error celltypeErrMsg) :
    (updateModule moduleId u t).1 = .error "Failed to update PV module. Please try again." := by
  simp only [updateModule, h]
  congr 1

/-- Every `simulateIVCurve` validation failure is delivered unchanged and
dispatches nothing. -/
theorem simulateIVCurve_validation_passthrough (a b c : JSValue)
    (t : TransportResult SimulationResponse) (msg : String)
    (h : simulateLocalValidation a b c = .error msg) :
    simulateIVCurve a b c t = (.error msg, []) := by
  simp only [simulateIVCurve, h]
  congr 2
  rcases simulateLocalValidation_error_shape a b c msg h with rfl | rfl | rfl | rfl | rfl
  · exact simulateCatchHandler_passthrough _ _ (Or.inr (Or.inr (by decide)))
  · exact simulateCatchHandler_passthrough _ _ (Or.inl (by decide))
  · exact simulateCatchHandler_passthrough _ _ (Or.inl (by decide))
  · exact simulateCatchHandler_passthrough _ _ (Or.inr (Or.inl (by decide)))
  · exact simulateCatchHandler_passthrough _ _ (Or.inr (Or.inl (by decide)))

/-- A create payload that is valid except for an unknown celltype. -/
def badCelltypePayload : PVModuleCreate :=
  ⟨.str "Test Panel", .num 40, .num 10, .num 33, .num 9, .num 60,
    .num (-1), .num 1, .str "foo", .num (-1)⟩

/-- A create payload with a missing (undefined) name and everything else valid. -/
def missingNamePayload : PVModuleCreate :=
  ⟨.undefined, .num 40, .num 10, .num 33, .num 9, .num 60,
    .num (-1), .num 1, .str "monoSi", .num (-1)⟩

/-- A fully valid create payload. -/
def validCreatePayload : PVModuleCreate :=
  ⟨.str "Test Panel", .num 40, .num 10, .num 33, .num 9, .num 60,
    .num (-1), .num 1, .str "monoSi", .num (-1)⟩

/-- An update payload supplying nothing. -/
def emptyUpdatePayload : PVModuleUpdate :=
  ⟨.undefined, .undefined, .undefined, .undefined, .undefined, .undefined, .undefined, .undefined, .undefined, .undefined⟩

/-- C2 counterexample: on a payload whose only violation is the celltype rule,
`createModule` delivers the generic create-failure message, not the original
celltype validation message — the claim's "including the celltype-membership
rule" fails on the code (the `catch` whitelist does not cover the celltype
message). -/
theorem createModule_celltype_error_is_rewritten :
    createLocalValidation badCelltypePayload = .error celltypeErrMsg ∧
    (createModule badCelltypePayload (.err (.network "Network Error"))).1 =
      .error "Failed to create PV module. Please check your input and try again." ∧
    celltypeErrMsg ≠ "Failed to create PV module. Please check your input and try again." :=
  ⟨by rfl, by rfl, by decide⟩

/-- C2 (amended): every local validation failure of `createModule`,
`updateModule` or `simulateIVCurve` raised by a rule other than the
celltype-membership rule is delivered to the caller with its original
field-naming message, never replaced by the generic handler; a
celltype-membership failure of `createModule`/`updateModule`, however, is
delivered as the operation's generic failure message.  `simulateIVCurve`
validation failures are always delivered unchanged, with nothing dispatched. -/
theorem localValidation_error_delivery :
    ∀ (m : PVModuleCreate) (moduleId : ℚ) (u : PVModuleUpdate) (a b c : JSValue)
      (t₁ t₂ : TransportResult PVModule) (t₃ : TransportResult SimulationResponse)
      (msg : String),
      (createLocalValidation m = .error msg → msg ≠ celltypeErrMsg →
        (createModule m t₁).1 = .error msg) ∧
      (createLocalValidation m = .error celltypeErrMsg →
        (createModule m t₁).1 =
          .error "Failed to create PV module. Please check your input and try again.") ∧
      (updateLocalValidation u = .error msg → msg ≠ celltypeErrMsg →
        (updateModule moduleId u t₂).1 = .error msg) ∧
      (updateLocalValidation u = .error celltypeErrMsg →
        (updateModule moduleId u t₂).1 =
          .error "Failed to update PV module. Please try again.") ∧
      (simulateLocalValidation a b c = .error msg →
        simulateIVCurve a b c t₃ = (.error msg, [])) := by
  intro m moduleId u a b c t₁ t₂ t₃ msg
  exact ⟨fun h hne => createModule_validation_passthrough m t₁ msg h hne,
    fun h => createModule_celltype_generic m t₁ h,
    fun h hne => updateModule_validation_passthrough moduleId u t₂ msg h hne,
    fun h => updateModule_celltype_generic moduleId u t₂ h,
    fun h => simulateIVCurve_validation_passthrough a b c t₃ msg h⟩

/-- Witness for `localValidation_error_delivery` at concrete inputs. -/
theorem localValidation_error_delivery_witness :
    (createModule missingNamePayload (.err (.network "Network Error"))).1 =
      .error "Missing required fields: name" ∧
    (simulateIVCurve (.num 1) (.num 150) .undefined (.err (.network "Network Error"))) =
      (.error "Temperature must be between -40°C and 85°C.", []) :=
  ⟨(localValidation_error_delivery missingNamePayload 1 emptyUpdatePayload
      (.num 1) (.num 150) .undefined (.err (.network "Network Error"))
      (.err (.network "Network Error")) (.err (.network "Network Error"))
      "Missing required fields: name").1 (by rfl) (by decide),
    (localValidation_error_delivery missingNamePayload 1 emptyUpdatePayload
      (.num 1) (.num 150) .undefined (.err (.network "Network Error"))
      (.err (.network "Network Error")) (.err (.network "Network Error"))
      "Temperature must be between -40°C and 85°C.").2.2.2.2 (by rfl)⟩

theorem jsMissing_eq_not_specPresent (v : JSValue) : jsMissing v = !specPresent v := by
  cases v <;> simp [jsMissing, specPresent]

theorem jsNotNumber_eq_not_specNumeric (v : JSValue) : jsNotNumber v = !specNumeric v := by
  cases v <;> simp [jsNotNumber, specNumeric]

theorem jsLeZero_eq_of_numeric (v : JSValue) (h : specNumeric v = true) :
    jsLeZero v = !specPositiveNum v := by
  cases v <;> simp [specNumeric] at h
  case num q =>
    simp only [jsLeZero, specPositiveNum]
    rw [← decide_not]
    exact decide_eq_decide.mpr not_lt.symm

theorem posIntCond_eq_of_numeric (v : JSValue) (h : specNumeric v = true) :
    (!jsIsInteger v || jsLeZero v) = !specPosIntNum v := by
  cases v <;> simp [specNumeric] at h
  case num q =>
    simp only [jsIsInteger, jsLeZero, specPosIntNum, Bool.not_and]
    congr 1
    rw [← decide_not]
    exact decide_eq_decide.mpr not_lt.symm

theorem jsCelltypeIncluded_eq_spec (v : JSValue) :
    jsCelltypeIncluded v = specCelltypeMember v := by
  cases v <;> simp [jsCelltypeIncluded, specCelltypeMember, VALID_CELLTYPES]

theorem positiveFields_subset_numericFields :
    ∀ f ∈ positiveFields, f ∈ numericFields := by
  intro f hf
  simp only [positiveFields, List.mem_cons, List.not_mem_nil, or_false] at hf
  rcases hf with rfl | rfl | rfl | rfl <;> decide

/-- The source create-validation cascade coincides with the spec-modelled one
on every payload. -/
theorem createValidation_eq_spec (m : PVModuleCreate) :
    createLocalValidation m = createValidationSpec m := by
  unfold createLocalValidation createValidationSpec
  simp only [gt_iff_lt, List.length_pos, ne_eq]
  have hm : List.filter (fun field => jsMissing (m.getField field)) requiredFields =
      List.filter (fun field => !specPresent (m.getField field)) requiredFields :=
    List.filter_congr fun f _ => jsMissing_eq_not_specPresent (m.getField f)
  rw [hm]
  by_cases h1 : List.filter (fun field => !specPresent (m.getField field)) requiredFields = []
  · have c1 : ¬¬(List.filter (fun field => !specPresent (m.getField field)) requiredFields = []) :=
      not_not_intro h1
    rw [if_neg c1, if_neg c1]
    have hn : List.filter (fun field => jsNotNumber (m.getField field)) numericFields =
        List.filter (fun field => !specNumeric (m.getField field)) numericFields :=
      List.filter_congr fun f _ => jsNotNumber_eq_not_specNumeric (m.getField f)
    rw [hn]
    by_cases h2 : List.filter (fun field => !specNumeric (m.getField field)) numericFields = []
    · have c2 : ¬¬(List.filter (fun field => !specNumeric (m.getField field)) numericFields = []) :=
        not_not_intro h2
      rw [if_neg c2, if_neg c2]
      have hnum : ∀ f ∈ numericFields, specNumeric (m.getField f) = true := by
        intro f hf
        have h := List.filter_eq_nil_iff.mp h2 f hf
        simpa using h
      have hp : List.filter (fun field => jsLeZero (m.getField field)) positiveFields =
          List.filter (fun field => !specPositiveNum (m.getField field)) positiveFields :=
        List.filter_congr fun f hf =>
          jsLeZero_eq_of_numeric (m.getField f) (hnum f (positiveFields_subset_numericFields f hf))
      rw [hp]
      by_cases h3 : List.filter (fun field => !specPositiveNum (m.getField field)) positiveFields = []
      · have c3 : ¬¬(List.filter (fun field => !specPositiveNum (m.getField field)) positiveFields = []) :=
          not_not_intro h3
        rw [if_neg c3, if_neg c3]
        have hns : specNumeric m.ns = true := hnum "ns" (by decide)
        have h4 : (!jsIsInteger m.ns || jsLeZero m.ns) = !specPosIntNum m.ns :=
          posIntCond_eq_of_numeric m.ns hns
        rw [h4, jsCelltypeIncluded_eq_spec m.celltype]
      · rw [if_pos h3, if_pos h3]
    · rw [if_pos h2, if_pos h2]
  · rw [if_pos h1, if_pos h1]

/-- C1: `createModule` validates locally, in the fixed order
required/numeric/positive/ns/celltype, failing with the message of the first
violated rule (with the field-listing messages the spec describes), and a
validation failure dispatches no request. -/
theorem createModule_validates_locally_in_order :
    ∀ (m : PVModuleCreate) (t : TransportResult PVModule),
      createLocalValidation m = createValidationSpec m ∧
      (∀ msg, createValidationSpec m = .error msg → (createModule m t).2 = []) := by
  intro m t
  refine ⟨createValidation_eq_spec m, fun msg h => ?_⟩
  have h' : createLocalValidation m = .error msg := (createValidation_eq_spec m).trans h
  simp only [createModule, h']

/-- Witness for `createModule_validates_locally_in_order` at a concrete
payload missing its name. -/
theorem createModule_validates_locally_in_order_witness :
    (createLocalValidation missingNamePayload = createValidationSpec missingNamePayload) ∧
    (createModule missingNamePayload (.err (.network "Network Error"))).2 = [] :=
  ⟨(createModule_validates_locally_in_order missingNamePayload
      (.err (.network "Network Error"))).1,
    (createModule_validates_locally_in_order missingNamePayload
      (.err (.network "Network Error"))).2 "Missing required fields: name" (by rfl)⟩

theorem posIntCond_eq (v : JSValue) :
    (!jsIsInteger v || jsLeZero v) = !specPosIntNum v := by
  cases v <;> simp only [jsIsInteger, jsLeZero, specPosIntNum, Bool.not_false, Bool.or_false,
    Bool.not_and]
  case num q =>
    congr 1
    rw [← decide_not]
    exact decide_eq_decide.mpr not_lt.symm

theorem irrCheck_eq (c : JSValue) :
    (if jsSupplied c && jsNotNumber c then
      (.error "Irradiance must be a valid number." : Except String Unit)
    else if jsSupplied c && (jsNumLt c 0 || jsNumGt c 1500) then
      .error "Irradiance must be between 0 and 1500 W/m²."
    else .ok ()) = irradianceCheckSpec c := by
  cases c <;> simp [jsSupplied, jsNotNumber, jsNumLt, jsNumGt, irradianceCheckSpec]

theorem tempIrrCheck_eq (b c : JSValue) :
    (if jsSupplied b && jsNotNumber b then
      (.error "Temperature must be a valid number." : Except String Unit)
    else if jsSupplied b && (jsNumLt b (-40) || jsNumGt b 85) then
      .error "Temperature must be between -40°C and 85°C."
    else if jsSupplied c && jsNotNumber c then
      .error "Irradiance must be a valid number."
    else if jsSupplied c && (jsNumLt c 0 || jsNumGt c 1500) then
      .error "Irradiance must be between 0 and 1500 W/m²."
    else .ok ()) =
    (match temperatureCheckSpec b with
     | .error msg => .error msg
     | .ok _ => irradianceCheckSpec c) := by
  cases b
  case undefined =>
    simp only [temperatureCheckSpec, jsSupplied, jsNotNumber]
    simp only [show (decide ((JSValue.undefined : JSValue) ≠ .undefined)) = false by decide,
      Bool.false_and, if_false]
    exact irrCheck_eq c
  case num q =>
    by_cases hq : q < -40 ∨ 85 < q
    · simp [temperatureCheckSpec, jsSupplied, jsNotNumber, jsNumLt, jsNumGt, hq]
    · simp only [temperatureCheckSpec, jsSupplied, jsNotNumber, jsNumLt, jsNumGt]
      simp [hq, irrCheck_eq c]
      rw [← irrCheck_eq c]
      simp [jsSupplied, jsNotNumber, jsNumLt, jsNumGt]
  case null =>
    simp [temperatureCheckSpec, jsSupplied, jsNotNumber]
  case nan =>
    simp [temperatureCheckSpec, jsSupplied, jsNotNumber]
  case str s =>
    simp [temperatureCheckSpec, jsSupplied, jsNotNumber]

/-- The source simulation-validation cascade coincides with the spec-modelled
one on every input triple. -/
theorem simulateValidation_eq_spec (a b c : JSValue) :
    simulateLocalValidation a b c = simulateValidationSpec a b c := by
  unfold simulateLocalValidation simulateValidationSpec
  rw [posIntCond_eq a]
  by_cases h : (!specPosIntNum a) = true
  · rw [if_pos h, if_pos h]
  · rw [if_neg h, if_neg h]
    exact tempIrrCheck_eq b c

/-- C3: `simulateIVCurve` validates module id, then temperature, then
irradiance (an omitted optional triggers no range check), exactly as the
spec-modelled cascade, and every validation failure is delivered with its
dedicated message while dispatching no request. -/
theorem simulateIVCurve_validates_locally_in_order :
    ∀ (module_id temperature irradiance : JSValue) (t : TransportResult SimulationResponse),
      simulateLocalValidation module_id temperature irradiance =
        simulateValidationSpec module_id temperature irradiance ∧
      (∀ msg, simulateValidationSpec module_id temperature irradiance = .error msg →
        simulateIVCurve module_id temperature irradiance t = (.error msg, [])) := by
  intro a b c t
  refine ⟨simulateValidation_eq_spec a b c, fun msg h => ?_⟩
  exact simulateIVCurve_validation_passthrough a b c t msg
    ((simulateValidation_eq_spec a b c).trans h)

/-- Witness for `simulateIVCurve_validates_locally_in_order`: an irradiance of
2000 fails locally with the range message and no dispatch. -/
theorem simulateIVCurve_validates_locally_in_order_witness :
    (simulateLocalValidation (.num 1) .undefined (.num 2000) =
      simulateValidationSpec (.num 1) .undefined (.num 2000)) ∧
    simulateIVCurve (.num 1) .undefined (.num 2000)
        (.err (.network "timeout of 20000ms exceeded")) =
      (.error "Irradiance must be between 0 and 1500 W/m².", []) :=
  ⟨(simulateIVCurve_validates_locally_in_order (.num 1) .undefined (.num 2000)
      (.err (.network "timeout of 20000ms exceeded"))).1,
    (simulateIVCurve_validates_locally_in_order (.num 1) .undefined (.num 2000)
      (.err (.network "timeout of 20000ms exceeded"))).2
      "Irradiance must be between 0 and 1500 W/m²." (by rfl)⟩

/-- C4: on a locally valid call, the dispatched body carries the inputs
through unmodified, with `use_environmental_conditions` true exactly when at
least one optional was supplied (so no standard-test-condition default is ever
inserted by the client). -/
theorem simulateIVCurve_request_body :
    ∀ (module_id temperature irradiance : JSValue) (t : TransportResult SimulationResponse),
      simulateLocalValidation module_id temperature irradiance = .ok () →
      ∃ body, (simulateIVCurve module_id temperature irradiance t).2 = [body] ∧
        body.module_id = module_id ∧
        body.temperature = temperature ∧
        body.irradiance = irradiance ∧
        (body.use_environmental_conditions = true ↔
          (temperature ≠ .undefined ∨ irradiance ≠ .undefined)) := by
  intro a b c t h
  refine ⟨⟨a, jsSupplied b || jsSupplied c, b, c⟩, ?_, rfl, rfl, rfl, ?_⟩
  · simp only [simulateIVCurve, h]
    cases t <;> rfl
  · simp [jsSupplied]

/-- Witness for `simulateIVCurve_request_body`: a call with no environmental
overrides dispatches `use_environmental_conditions = false` and both optionals
`undefined`. -/
theorem simulateIVCurve_request_body_witness :
    ∃ body, (simulateIVCurve (.num 1) .undefined .undefined
        (.ok ⟨1, "stc", 1000, 25, [], [], ⟨40, 10, 33, 9, 297⟩⟩)).2 = [body] ∧
      body.module_id = .num 1 ∧
      body.temperature = .undefined ∧
      body.irradiance = .undefined ∧
      (body.use_environmental_conditions = true ↔
        ((.undefined : JSValue) ≠ .undefined ∨ (.undefined : JSValue) ≠ .undefined)) :=
  simulateIVCurve_request_body (.num 1) .undefined .undefined
    (.ok ⟨1, "stc", 1000, 25, [], [], ⟨40, 10, 33, 9, 297⟩⟩) (by rfl)

theorem foldl_collect_eq_filterMap (l : List (Except String String)) (acc : List String) :
    l.foldl
      (fun acc r =>
        match r with
        | .ok s => acc ++ [s]
        | .error _ => acc)
      acc = acc ++ l.filterMap Except.toOption := by
  induction l generalizing acc with
  | nil => simp
  | cons x xs ih =>
    cases x with
    | ok s => simp [List.foldl_cons, ih, Except.toOption, List.filterMap_cons]
    | error e => simp [List.foldl_cons, ih, Except.toOption, List.filterMap_cons]

/-- C5: `deleteMultipleModules` dispatches one delete per id, returns exactly
the confirmations of the deletes that succeeded (failures are dropped, never
propagated), returns the empty sequence when every delete fails, and makes no
call on an empty input. -/
theorem deleteMultipleModules_partial_success :
    ∀ (moduleIds : List ℚ) (t : Nat → TransportResult DeleteResponse),
      (deleteMultipleModules moduleIds t).1 =
        (moduleIds.mapIdx fun i id => deleteModule id (t i)).filterMap Except.toOption ∧
      (deleteMultipleModules moduleIds t).2 = moduleIds ∧
      (moduleIds = [] → deleteMultipleModules moduleIds t = ([], [])) ∧
      ((∀ r ∈ moduleIds.mapIdx fun i id => deleteModule id (t i), Except.toOption r = none) →
        (deleteMultipleModules moduleIds t).1 = []) := by
  intro ids t
  have h1 : (deleteMultipleModules ids t).1 =
      (ids.mapIdx fun i id => deleteModule id (t i)).filterMap Except.toOption := by
    simpa [deleteMultipleModules] using
      foldl_collect_eq_filterMap (ids.mapIdx fun i id => deleteModule id (t i)) []
  refine ⟨h1, rfl, ?_, ?_⟩
  · rintro rfl
    rfl
  · intro hall
    rw [h1]
    exact List.filterMap_eq_nil_iff.mpr hall

/-- Witness for `deleteMultipleModules_partial_success`: the empty batch makes
no call, and a batch whose only delete fails yields the empty sequence. -/
theorem deleteMultipleModules_partial_success_witness :
    deleteMultipleModules [] (fun _ => .err (.network "Network Error")) = ([], []) ∧
    (deleteMultipleModules [5]
      (fun _ => .err (.http 404 (some "Module not found")
        "Request failed with status code 404"))).1 = [] :=
  ⟨(deleteMultipleModules_partial_success []
      (fun _ => .err (.network "Network Error"))).2.2.1 rfl,
    (deleteMultipleModules_partial_success [5]
      (fun _ => .err (.http 404 (some "Module not found")
        "Request failed with status code 404"))).2.2.2 (by decide)⟩

/-- C10: the confirmations are collected positionally — the output is the
index-ordered filter-map over the enumerated id list — so completion order
cannot reorder the result, whose length never exceeds the input's. -/
theorem deleteMultipleModules_preserves_order :
    ∀ (moduleIds : List ℚ) (t : Nat → TransportResult DeleteResponse),
      (deleteMultipleModules moduleIds t).1 =
        moduleIds.enum.filterMap (fun p => Except.toOption (deleteModule p.2 (t p.1))) ∧
      (deleteMultipleModules moduleIds t).1.length ≤ moduleIds.length := by
  intro ids t
  have h1 : (deleteMultipleModules ids t).1 =
      (ids.mapIdx fun i id => deleteModule id (t i)).filterMap Except.toOption := by
    simpa [deleteMultipleModules] using
      foldl_collect_eq_filterMap (ids.mapIdx fun i id => deleteModule id (t i)) []
  have h2 : (ids.mapIdx fun i id => deleteModule id (t i)).filterMap Except.toOption =
      ids.enum.filterMap (fun p => Except.toOption (deleteModule p.2 (t p.1))) := by
    rw [List.mapIdx_eq_enum_map, List.filterMap_map]
    rfl
  refine ⟨h1.trans h2, ?_⟩
  rw [h1]
  calc ((ids.mapIdx fun i id => deleteModule id (t i)).filterMap Except.toOption).length
      ≤ (ids.mapIdx fun i id => deleteModule id (t i)).length :=
        List.length_filterMap_le _ _
    _ = ids.length := List.length_mapIdx

/-- A stored record used as a concrete listing entry. -/
def sampleModule : PVModule :=
  ⟨1, "Test Solar Panel", 40, 10, 33, 9, 60, -1, 1, "monoSi", -1⟩

/-- C6: `checkModuleNameExists` is true exactly when the listing contains a
record matching the name case-insensitively whose id differs from `excludeId`
(an omitted `excludeId` excludes nothing), and reports false instead of
raising whenever the listing call fails. -/
theorem checkModuleNameExists_spec :
    ∀ (name : String) (excludeId : Option ℚ) (t : TransportResult (List PVModule)),
      (∀ modules, t = .ok modules →
        (checkModuleNameExists name excludeId t = true ↔
          ∃ m ∈ modules, jsToLowerCase m.name = jsToLowerCase name ∧
            ∀ e, excludeId = some e → m.id ≠ e)) ∧
      (∀ e, t = .err e → checkModuleNameExists name excludeId t = false) := by
  intro name ex t
  constructor
  · intro modules ht
    subst ht
    simp only [checkModuleNameExists, getAllModules]
    rw [List.any_eq_true]
    constructor
    · rintro ⟨m, hm, hp⟩
      simp only [Bool.and_eq_true, beq_iff_eq] at hp
      refine ⟨m, hm, hp.1, ?_⟩
      intro e he
      subst he
      simpa [jsIdNe] using hp.2
    · rintro ⟨m, hm, h1, h2⟩
      refine ⟨m, hm, ?_⟩
      simp only [Bool.and_eq_true, beq_iff_eq]
      refine ⟨h1, ?_⟩
      cases ex with
      | none => simp [jsIdNe]
      | some e => simpa [jsIdNe] using h2 e rfl
  · intro e ht
    subst ht
    rfl

/-- Witness for `checkModuleNameExists_spec`: a case-differing name matches,
and a failed listing reports false. -/
theorem checkModuleNameExists_spec_witness :
    checkModuleNameExists "TEST SOLAR PANEL" none (.ok [sampleModule]) = true ∧
    checkModuleNameExists "Test Solar Panel" none (.err (.network "Network Error")) = false :=
  ⟨((checkModuleNameExists_spec "TEST SOLAR PANEL" none (.ok [sampleModule])).1
      [sampleModule] rfl).mpr
      ⟨sampleModule, by decide, by decide, fun e he => Option.noConfusion he⟩,
    (checkModuleNameExists_spec "Test Solar Panel" none
      (.err (.network "Network Error"))).2 (.network "Network Error") rfl⟩

theorem occursIn_of_middle (pre pat post : List Char) :
    occursIn pat (pre ++ (pat ++ post)) = true := by
  induction pre with
  | nil => simpa using occursIn_append pat post
  | cons c cs ih => simp [occursIn, ih]

theorem strIncludes_of_parts (pre pat post : String) :
    strIncludes (pre ++ (pat ++ post)) pat = true := by
  unfold strIncludes
  rw [String.data_append, String.data_append]
  exact occursIn_of_middle pre.data pat.data post.data

theorem strAppend_assoc (a b c : String) : (a ++ b) ++ c = a ++ (b ++ c) := by
  apply String.ext
  simp [String.data_append]

/-- The "not found" message mentions the interpolated id and the words
"not found". -/
theorem notFoundMsg_includes (moduleId : ℚ) :
    strIncludes (notFoundMsg moduleId) (ratDisplay moduleId) = true ∧
    strIncludes (notFoundMsg moduleId) "not found" = true := by
  constructor
  · have h1 : notFoundMsg moduleId =
        "PV module with ID " ++ (ratDisplay moduleId ++ " not found.") := by
      rw [notFoundMsg]
      exact strAppend_assoc _ _ _
    rw [h1]
    exact strIncludes_of_parts _ _ _
  · have hsplit : (" not found." : String) = " " ++ ("not found" ++ ".") := by decide
    have h2 : notFoundMsg moduleId =
        (("PV module with ID " ++ ratDisplay moduleId) ++ " ") ++ ("not found" ++ ".") := by
      rw [notFoundMsg, hsplit]
      exact (strAppend_assoc _ _ _).symm
    rw [h2]
    exact strIncludes_of_parts _ _ _

/-- Whether a message matches `createModule`'s re-throw whitelist. -/
def mentionsCreateValidation (s : String) : Bool :=
  strIncludes s "Missing required fields" || strIncludes s "Invalid numeric values" ||
    strIncludes s "Values must be positive" || strIncludes s "Number of cells"

/-- Whether a message matches `updateModule`'s re-throw whitelist. -/
def mentionsUpdateValidation (s : String) : Bool :=
  strIncludes s "Invalid numeric values" || strIncludes s "Values must be positive" ||
    strIncludes s "Number of cells"

/-- Whether a message matches `simulateIVCurve`'s re-throw whitelist. -/
def mentionsSimValidation (s : String) : Bool :=
  strIncludes s "Temperature must be" || strIncludes s "Irradiance must be" ||
    strIncludes s "Module ID must be"

/-- C7: for `getModuleById`, `updateModule`, `deleteModule` a 404 transport
failure yields the id-bearing "not found" message; for `createModule` and
`updateModule` a 400 yields the server detail verbatim (while get/delete keep
their generic messages even on 400); every other transport failure (whose
transport message, as produced by the HTTP library, never matches a validation
whitelist fragment) collapses to the operation's single generic message. -/
theorem transport_failure_normalization :
    ∀ (moduleId : ℚ) (m : PVModuleCreate) (u : PVModuleUpdate) (e : TransportError),
      (e.status? = some 404 →
        getModuleById moduleId (.err e) = .error (notFoundMsg moduleId) ∧
        deleteModule moduleId (.err e) = .error (notFoundMsg moduleId) ∧
        (updateLocalValidation u = .ok () →
          (updateModule moduleId u (.err e)).1 = .error (notFoundMsg moduleId)) ∧
        strIncludes (notFoundMsg moduleId) (ratDisplay moduleId) = true ∧
        strIncludes (notFoundMsg moduleId) "not found" = true) ∧
      (∀ d ms, e = .http 400 (some d) ms → d ≠ "" →
        (createLocalValidation m = .ok () →
          (createModule m (.err e)).1 = .error d) ∧
        (updateLocalValidation u = .ok () →
          (updateModule moduleId u (.err e)).1 = .error d) ∧
        getModuleById moduleId (.err e) = .error "Failed to load PV module. Please try again." ∧
        deleteModule moduleId (.err e) = .error "Failed to delete PV module. Please try again.") ∧
      (e.status? ≠ some 404 → e.status? ≠ some 400 →
        getModuleById moduleId (.err e) = .error "Failed to load PV module. Please try again." ∧
        deleteModule moduleId (.err e) = .error "Failed to delete PV module. Please try again." ∧
        (mentionsCreateValidation e.msg = false → createLocalValidation m = .ok () →
          (createModule m (.err e)).1 =
            .error "Failed to create PV module. Please check your input and try again.") ∧
        (mentionsUpdateValidation e.msg = false → updateLocalValidation u = .ok () →
          (updateModule moduleId u (.err e)).1 =
            .error "Failed to update PV module. Please try again.")) := by
  intro moduleId m u e
  refine ⟨?_, ?_, ?_⟩
  · intro h404
    refine ⟨?_, ?_, ?_, (notFoundMsg_includes moduleId).1, (notFoundMsg_includes moduleId).2⟩
    · simp [getModuleById, h404]
    · simp [deleteModule, h404]
    · intro hv
      simp [updateModule, hv, updateCatchHandler, TransportError.toCaught, h404]
  · rintro d ms rfl hd
    refine ⟨?_, ?_, ?_, ?_⟩
    · intro hv
      simp [createModule, hv, createCatchHandler, TransportError.toCaught,
        TransportError.status?, TransportError.detail?, jsOrElse, hd]
    · intro hv
      simp [updateModule, hv, updateCatchHandler, TransportError.toCaught,
        TransportError.status?, TransportError.detail?, jsOrElse, hd]
    · simp [getModuleById, TransportError.status?]
    · simp [deleteModule, TransportError.status?]
  · intro h404 h400
    refine ⟨?_, ?_, ?_, ?_⟩
    · simp [getModuleById, h404]
    · simp [deleteModule, h404]
    · intro hmsg hv
      have hms : mentionsCreateValidation e.msg = false := hmsg
      simp only [mentionsCreateValidation, Bool.or_eq_false_iff] at hms
      simp [createModule, hv, createCatchHandler, TransportError.toCaught,
        h400, hms.1.1.1, hms.1.1.2, hms.1.2, hms.2]
    · intro hmsg hv
      have hms : mentionsUpdateValidation e.msg = false := hmsg
      simp only [mentionsUpdateValidation, Bool.or_eq_false_iff] at hms
      simp [updateModule, hv, updateCatchHandler, TransportError.toCaught,
        h404, h400, hms.1.1, hms.1.2, hms.2]

/-- Witness for `transport_failure_normalization`: a 404 get, a 400 create
with server detail, and a pure network failure on get. -/
theorem transport_failure_normalization_witness :
    getModuleById 99999 (.err (.http 404 (some "Module not found")
        "Request failed with status code 404")) = .error (notFoundMsg 99999) ∧
    (createModule validCreatePayload (.err (.http 400
        (some "Module with this name already exists")
        "Request failed with status code 400"))).1 =
      .error "Module with this name already exists" ∧
    getModuleById 1 (.err (.network "Network Error")) =
      .error "Failed to load PV module. Please try again." :=
  ⟨((transport_failure_normalization 99999 validCreatePayload emptyUpdatePayload
      (.http 404 (some "Module not found") "Request failed with status code 404")).1 rfl).1,
    ((transport_failure_normalization 99999 validCreatePayload emptyUpdatePayload
      (.http 400 (some "Module with this name already exists")
        "Request failed with status code 400")).2.1
      "Module with this name already exists" "Request failed with status code 400"
      rfl (by decide)).1 (by rfl),
    ((transport_failure_normalization 1 validCreatePayload emptyUpdatePayload
      (.network "Network Error")).2.2 (by decide) (by decide)).1⟩

/-- C8: on a dispatched simulation that fails at the transport, a 404 yields
the id-bearing "not found" message, a 500 embeds the server detail behind the
"Simulation error: " label, and any other status or pure network failure
(whose transport message never matches the validation whitelist) collapses to
the single generic simulation-failure message. -/
theorem simulateIVCurve_transport_errors :
    ∀ (module_id temperature irradiance : JSValue) (e : TransportError) (q : ℚ),
      simulateLocalValidation module_id temperature irradiance = .ok () →
      (e.status? = some 404 → module_id = .num q →
        (simulateIVCurve module_id temperature irradiance (.err e)).1 =
          .error (notFoundMsg q) ∧
        strIncludes (notFoundMsg q) (ratDisplay q) = true ∧
        strIncludes (notFoundMsg q) "not found" = true) ∧
      (∀ d ms, e = .http 500 (some d) ms → d ≠ "" →
        (simulateIVCurve module_id temperature irradiance (.err e)).1 =
          .error ("Simulation error: " ++ d)) ∧
      (e.status? ≠ some 404 → e.status? ≠ some 500 → mentionsSimValidation e.msg = false →
        (simulateIVCurve module_id temperature irradiance (.err e)).1 =
          .error "Failed to generate IV curve simulation. Please try again.") := by
  intro a b c e q hv
  refine ⟨?_, ?_, ?_⟩
  · rintro h404 rfl
    refine ⟨?_, (notFoundMsg_includes q).1, (notFoundMsg_includes q).2⟩
    simp [simulateIVCurve, hv, simulateCatchHandler, TransportError.toCaught, h404]
  · rintro d ms rfl hd
    simp [simulateIVCurve, hv, simulateCatchHandler, TransportError.toCaught,
      TransportError.status?, TransportError.detail?, jsOrElse, hd]
  · intro h404 h500 hmsg
    have hms : mentionsSimValidation e.msg = false := hmsg
    simp only [mentionsSimValidation, Bool.or_eq_false_iff] at hms
    simp [simulateIVCurve, hv, simulateCatchHandler, TransportError.toCaught,
      h404, h500, hms.1.1, hms.1.2, hms.2]

/-- Witness for `simulateIVCurve_transport_errors`: a 404 on a nonexistent
module id 99999. -/
theorem simulateIVCurve_transport_errors_witness :
    (simulateIVCurve (.num 99999) .undefined .undefined (.err (.http 404
        (some "Module not found") "Request failed with status code 404"))).1 =
      .error (notFoundMsg 99999) ∧
    strIncludes (notFoundMsg 99999) (ratDisplay 99999) = true ∧
    strIncludes (notFoundMsg 99999) "not found" = true :=
  (simulateIVCurve_transport_errors (.num 99999) .undefined .undefined
    (.http 404 (some "Module not found") "Request failed with status code 404") 99999
    (by rfl)).1 rfl rfl

/-- C9: the transport adapter's response error interceptor clears the stored
credential exactly on status 401, leaves the state untouched on any other
failure, and always re-raises the same error. -/
theorem responseErrorInterceptor_spec :
    ∀ (s : ClientState) (e : TransportError),
      ((responseErrorInterceptor s e).1.authToken = none ↔
        (e.status? = some 401 ∨ s.authToken = none)) ∧
      (e.status? ≠ some 401 → (responseErrorInterceptor s e).1 = s) ∧
      (responseErrorInterceptor s e).2 = e := by
  intro s e
  refine ⟨?_, ?_, rfl⟩
  · by_cases h : e.status? = some 401 <;> simp [responseErrorInterceptor, h]
  · intro h
    simp [responseErrorInterceptor, h]

/-- Witness for `responseErrorInterceptor_spec`: a 401 clears the token, a
network failure leaves it. -/
theorem responseErrorInterceptor_spec_witness :
    (responseErrorInterceptor ⟨some "jwt"⟩ (.http 401 (some "Unauthorized")
        "Request failed with status code 401")).1.authToken = none ∧
    (responseErrorInterceptor ⟨some "jwt"⟩ (.network "Network Error")).1 = ⟨some "jwt"⟩ :=
  ⟨(responseErrorInterceptor_spec ⟨some "jwt"⟩ (.http 401 (some "Unauthorized")
      "Request failed with status code 401")).1.mpr (Or.inl rfl),
    (responseErrorInterceptor_spec ⟨some "jwt"⟩ (.network "Network Error")).2.1 (by decide)⟩
